import Mathlib

/-!
Verification development for the trading-platform repository.

The development shallowly embeds:
* the `User` model of `src/apps/authentication/models.py` (account locking and
  trading entitlement);
* the channel-layer (Broadcast Bus) configuration of
  `src/trading_platform/settings/{base,development,production}.py`;
* the required-environment-variable checks of
  `src/trading_platform/settings/production.py`;
* the WebSocket routing table of `src/trading_platform/routing.py`;
* the real-time subscription and fan-out gateway (Topic Registry, Session
  queues with drop-oldest backpressure, Dispatcher), which is described by the
  specification but whose implementation is not part of the visible sources,
  so it is modelled from the spec.

Machine times are modelled as natural numbers; `timezone.now()` becomes an
explicit `now : Nat` argument.
-/

/-- The `User` model of `src/apps/authentication/models.py`, restricted to the
fields that the account-locking and trading-entitlement logic reads or writes.
`account_locked_until` is `none` when the Django field is NULL. -/
structure User where
  username : String
  is_active : Bool
  is_verified : Bool
  trading_enabled : Bool
  paper_trading_only : Bool
  two_factor_enabled : Bool
  failed_login_attempts : Nat
  account_locked_until : Option Nat
  email_notifications : Bool
deriving DecidableEq

/-- `User.is_account_locked` from `models.py`: locked iff `account_locked_until`
is set and `timezone.now()` is strictly before it. -/
def is_account_locked (u : User) (now : Nat) : Bool :=
  match u.account_locked_until with
  | some lockedUntil => decide (now < lockedUntil)
  | none => false

/-- `User.can_trade` from `models.py`: active, verified, trading enabled and
not currently locked. -/
def can_trade (u : User) (now : Nat) : Bool :=
  u.is_active && u.is_verified && u.trading_enabled && !(is_account_locked u now)

/-- `User.reset_failed_attempts` from `models.py`: zero the failure counter,
clear the lock, and save exactly those two fields (the returned list embeds the
`update_fields` argument of the `save` call). -/
def reset_failed_attempts (u : User) : User × List String :=
  ({ u with failed_login_attempts := 0, account_locked_until := none },
   ["failed_login_attempts", "account_locked_until"])

/-- A configuration value of a settings dictionary: a numeric literal, a string
literal, a value read from an environment variable with a default, or a
one-element list (the shape used by `hosts` and `symmetric_encryption_keys`). -/
inductive ConfigVal where
  | num (n : Nat)
  | str (s : String)
  | envWithDefault (var : String) (dflt : ConfigVal)
  | listOf (v : ConfigVal)
deriving DecidableEq

/-- A configuration value is externally sourced when it is read from an
environment variable (possibly wrapped in a list); literals are fixed in code. -/
def isEnvSourced : ConfigVal → Bool
  | ConfigVal.envWithDefault _ _ => true
  | ConfigVal.listOf v => isEnvSourced v
  | _ => false

/-- Python `dict.update`: keys already present are overwritten in place, new
keys are appended in order. -/
def dictUpdate (d u : List (String × ConfigVal)) : List (String × ConfigVal) :=
  (d.map (fun kv => match u.lookup kv.1 with
    | some v => (kv.1, v)
    | none => kv))
  ++ u.filter (fun kv => (d.lookup kv.1).isNone)

/-- `CHANNEL_LAYERS['default']['CONFIG']` from `settings/base.py`: the host is
read from `CHANNEL_LAYER_URL`, while `capacity` and `expiry` are the literals
`1500` and `10`. -/
def baseChannelConfig : List (String × ConfigVal) :=
  [("hosts", ConfigVal.listOf (ConfigVal.envWithDefault "CHANNEL_LAYER_URL"
      (ConfigVal.str "redis://localhost:6379/2"))),
   ("capacity", ConfigVal.num 1500),
   ("expiry", ConfigVal.num 10)]

/-- `CHANNEL_LAYERS['default']['BACKEND']` from `settings/base.py`, shared by
every environment. -/
def channelLayerBackend : String := "channels_redis.core.RedisChannelLayer"

/-- The channel-layer config after `settings/development.py` runs
`CHANNEL_LAYERS['default']['CONFIG'].update(...)` with literal capacity `100`
and expiry `60`. -/
def developmentChannelConfig : List (String × ConfigVal) :=
  dictUpdate baseChannelConfig
    [("capacity", ConfigVal.num 100), ("expiry", ConfigVal.num 60)]

/-- The channel-layer config after `settings/production.py` runs
`CHANNEL_LAYERS['default']['CONFIG'].update(...)`: literal capacity `2000`,
expiry `30`, `group_expiry` `86400`, and symmetric encryption keys read from
`CHANNELS_ENCRYPTION_KEY` with `SECRET_KEY` as default. -/
def productionChannelConfig : List (String × ConfigVal) :=
  dictUpdate baseChannelConfig
    [("capacity", ConfigVal.num 2000),
     ("expiry", ConfigVal.num 30),
     ("group_expiry", ConfigVal.num 86400),
     ("symmetric_encryption_keys", ConfigVal.listOf
        (ConfigVal.envWithDefault "CHANNELS_ENCRYPTION_KEY"
          (ConfigVal.envWithDefault "SECRET_KEY"
            (ConfigVal.str "your-secret-key-change-in-production"))))]

/-- The channel-layer configs of the three settings modules, in the order
base, development, production. -/
def allChannelConfigs : List (List (String × ConfigVal)) :=
  [baseChannelConfig, developmentChannelConfig, productionChannelConfig]

/-- An environment assigns an optional string to each variable name. -/
def EnvMap : Type := String → Option String

/-- Python truthiness of `env(var, default=None)`: falsy when the variable is
unset or set to the empty string. -/
def envTruthy (e : EnvMap) (v : String) : Bool :=
  match e v with
  | none => false
  | some s => !s.isEmpty

/-- Splitting a character list on commas, accumulating the current item in
reverse; the helper behind the list cast applied to `ALLOWED_HOSTS`. -/
def splitCommaAux : List Char → List Char → List (List Char)
  | [], acc => [acc.reverse]
  | c :: rest, acc =>
    if c = ',' then acc.reverse :: splitCommaAux rest []
    else splitCommaAux rest (c :: acc)

/-- The list cast django-environ applies to `ALLOWED_HOSTS`: split on commas
and drop empty items, yielding `[]` when the variable is unset. -/
def allowedHostsList (e : EnvMap) : List String :=
  match e "ALLOWED_HOSTS" with
  | none => []
  | some s => ((splitCommaAux s.toList []).map String.mk).filter (fun x => !x.isEmpty)

/-- `REQUIRED_ENV_VARS` from `settings/production.py`. -/
def REQUIRED_ENV_VARS : List String :=
  ["SECRET_KEY", "ALLOWED_HOSTS", "DB_PASSWORD", "EMAIL_HOST_PASSWORD",
   "AWS_ACCESS_KEY_ID", "AWS_SECRET_ACCESS_KEY"]

/-- An exception raised while `settings/production.py` loads: the explicit
`ValueError` raises of lines 18 and 308, or the `ImproperlyConfigured` raised
by django-environ when `env(var)` is called with no default and the variable
is unset. -/
inductive LoadError where
  | valueError (msg : String)
  | improperlyConfigured (var : String)
deriving DecidableEq

/-- The environment variables `settings/production.py` reads through `env(...)`
with no default, in evaluation order: lines 67, 70, 71 (email), 80-82 (AWS)
and 277-279 (WebRTC TURN). Each such read raises `ImproperlyConfigured` when
the variable is unset; a variable set to the empty string is returned without
raising. -/
def noDefaultEnvReads : List String :=
  ["EMAIL_HOST", "EMAIL_HOST_USER", "EMAIL_HOST_PASSWORD",
   "AWS_ACCESS_KEY_ID", "AWS_SECRET_ACCESS_KEY", "AWS_STORAGE_BUCKET_NAME",
   "WEBRTC_TURN_SERVER", "WEBRTC_TURN_USERNAME", "WEBRTC_TURN_PASSWORD"]

/-- The no-default `env(var)` reads in order: the first unset variable raises
`ImproperlyConfigured`. -/
def readNoDefault (e : EnvMap) : List String → Except LoadError Unit
  | [] => Except.ok ()
  | v :: rest =>
    match e v with
    | none => Except.error (LoadError.improperlyConfigured v)
    | some _ => readNoDefault e rest

/-- The `for var in REQUIRED_ENV_VARS` loop of `settings/production.py`
(lines 306-308): raise `ValueError` on the first variable whose
`env(var, default=None)` value is falsy. -/
def checkRequiredVars (e : EnvMap) : List String → Except LoadError Unit
  | [] => Except.ok ()
  | v :: rest =>
    if envTruthy e v then checkRequiredVars e rest
    else Except.error (LoadError.valueError
      ("Required environment variable " ++ v ++ " is not set"))

/-- Loading `settings/production.py`, restricted to the statements that can
raise depending on the environment, in module order: the `ALLOWED_HOSTS`
emptiness check (lines 16-18, `ValueError`), then the no-default `env(...)`
reads of lines 67-82 and 277-279 (`ImproperlyConfigured`), then the
`REQUIRED_ENV_VARS` loop (lines 306-308, `ValueError`). -/
def loadProduction (e : EnvMap) : Except LoadError Unit :=
  if (allowedHostsList e).isEmpty then
    Except.error (LoadError.valueError
      "ALLOWED_HOSTS must be set in production environment")
  else
    match readNoDefault e noDefaultEnvReads with
    | Except.error err => Except.error err
    | Except.ok _ => checkRequiredVars e REQUIRED_ENV_VARS

/-- A concrete environment with `ALLOWED_HOSTS`, `SECRET_KEY`, `DB_PASSWORD`,
`EMAIL_HOST` and `EMAIL_HOST_USER` set and everything else, in particular
`EMAIL_HOST_PASSWORD`, unset. -/
def envMissingEmailPassword : EnvMap := fun v =>
  if v = "ALLOWED_HOSTS" then some "example.com"
  else if v = "SECRET_KEY" then some "secret"
  else if v = "DB_PASSWORD" then some "dbpass"
  else if v = "EMAIL_HOST" then some "smtp.example.com"
  else if v = "EMAIL_HOST_USER" then some "mailer"
  else none

/-- A WebSocket URL pattern of `src/trading_platform/routing.py`: the raw
regular expression and the names of its named capture groups. -/
structure URLPattern where
  regex : String
  groups : List String
deriving DecidableEq

/-- The literal `websocket_urlpatterns` list of `routing.py` (lines 35-63),
before the environment-dependent reassignment at line 131. -/
def websocketURLPatternsBase : List URLPattern :=
  [⟨"ws/market-data/(?P<symbol>[^/]+)/$", ["symbol"]⟩,
   ⟨"ws/market-data/stream/(?P<symbols>[^/]+)/$", ["symbols"]⟩,
   ⟨"ws/trading/(?P<user_id>\\w+)/$", ["user_id"]⟩,
   ⟨"ws/orders/(?P<user_id>\\w+)/$", ["user_id"]⟩,
   ⟨"ws/portfolio/(?P<portfolio_id>\\w+)/$", ["portfolio_id"]⟩,
   ⟨"ws/portfolio/(?P<portfolio_id>\\w+)/positions/$", ["portfolio_id"]⟩,
   ⟨"ws/predictions/(?P<symbol>[^/]+)/$", ["symbol"]⟩,
   ⟨"ws/model-training/(?P<model_id>\\w+)/$", ["model_id"]⟩,
   ⟨"ws/analytics/(?P<dashboard_id>\\w+)/$", ["dashboard_id"]⟩,
   ⟨"ws/alerts/(?P<user_id>\\w+)/$", ["user_id"]⟩,
   ⟨"ws/webrtc/signaling/(?P<room_name>[^/]+)/$", ["room_name"]⟩,
   ⟨"ws/webrtc/data-channel/(?P<session_id>[^/]+)/$", ["session_id"]⟩,
   ⟨"ws/admin/system-status/$", []⟩,
   ⟨"ws/admin/user-activity/(?P<user_id>\\w+)/$", ["user_id"]⟩]

/-- `get_websocket_patterns` from `routing.py` (lines 103-126): the base list
plus environment-specific patterns. -/
def get_websocket_patterns (environment : String) : List URLPattern :=
  if environment = "production" then
    websocketURLPatternsBase ++
      [⟨"ws/health/$", []⟩, ⟨"ws/metrics/$", []⟩]
  else if environment = "development" then
    websocketURLPatternsBase ++
      [⟨"ws/debug/(?P<debug_type>\\w+)/$", ["debug_type"]⟩,
       ⟨"ws/test/(?P<test_id>\\w+)/$", ["test_id"]⟩]
  else websocketURLPatternsBase

/-- Whether one character list occurs contiguously inside another; embeds the
Python substring test `'production' in os.environ.get(...)`. -/
def containsSub (p : List Char) : List Char → Bool
  | [] => p.isEmpty
  | c :: rest => List.isPrefixOf p (c :: rest) || containsSub p rest

/-- `current_env` from `routing.py` line 130: "production" when the
`DJANGO_SETTINGS_MODULE` value contains the substring "production", otherwise
"development". -/
def current_env (djangoSettingsModule : String) : String :=
  if containsSub "production".toList djangoSettingsModule.toList then "production"
  else "development"

/-- The final `websocket_urlpatterns` value of `routing.py` (line 131), as a
function of the `DJANGO_SETTINGS_MODULE` environment value. -/
def websocket_urlpatterns (djangoSettingsModule : String) : List URLPattern :=
  get_websocket_patterns (current_env djangoSettingsModule)

/-- The topic namespaces named by the specification (section 3, "Topic"). -/
def specNamespaces : List String :=
  ["market-data", "trading", "orders", "portfolio", "predictions",
   "model-training", "analytics", "alerts", "webrtc-signaling"]

/-- Replace every dash by a slash; `webrtc-signaling` names the path segment
pair `webrtc/signaling`. -/
def dashToSlash (s : String) : String :=
  String.mk (s.toList.map (fun c => if c = '-' then '/' else c))

/-- A URL pattern is scoped to a namespace when its path starts with the
namespace (or with the namespace read as nested path segments). -/
def scopedTo (ns regex : String) : Bool :=
  List.isPrefixOf ("ws/" ++ ns ++ "/").toList regex.toList ||
  List.isPrefixOf ("ws/" ++ dashToSlash ns ++ "/").toList regex.toList

/-- Modelled from the spec: a published event of the fan-out gateway
(section 3, "Event"): topic and per-topic sequence number; the payload is
opaque and omitted. The gateway implementation (Topic Registry, Connection
Session, Dispatcher) is not part of the visible sources. -/
structure Event where
  topic : String
  seq : Nat
deriving DecidableEq

/-- Modelled from the spec: the state shared by the Topic Registry
(`topicSubs`, `sessTopics`, sections 4.1), the per-session bounded outbound
queues and drop counters (sections 4.2 and 4.5), and the configured queue
capacity (section 5). Sessions are identified by numbers, topics by strings. -/
structure Gateway where
  capacity : Nat
  topicSubs : String → List Nat
  sessTopics : Nat → List String
  queue : Nat → List Event
  drops : Nat → Nat

/-- Insert an element at the back unless it is already present. -/
def addIfAbsent {α : Type} [DecidableEq α] (x : α) (l : List α) : List α :=
  if x ∈ l then l else l ++ [x]

/-- Modelled from the spec: the gateway state before any connection, with the
configured queue capacity. -/
def emptyGateway (cap : Nat) : Gateway :=
  ⟨cap, fun _ => [], fun _ => [], fun _ => [], fun _ => 0⟩

/-- Modelled from the spec: `subscribe(session, topic)` of the Topic Registry
(section 4.1), updating both indexes atomically. -/
def subscribeOp (g : Gateway) (sid : Nat) (t : String) : Gateway :=
  { g with
    topicSubs := fun t2 =>
      if t2 = t then addIfAbsent sid (g.topicSubs t2) else g.topicSubs t2,
    sessTopics := fun s =>
      if s = sid then addIfAbsent t (g.sessTopics s) else g.sessTopics s }

/-- Modelled from the spec: `unsubscribe(session, topic)` of the Topic
Registry (section 4.1), updating both indexes atomically. -/
def unsubscribeOp (g : Gateway) (sid : Nat) (t : String) : Gateway :=
  { g with
    topicSubs := fun t2 =>
      if t2 = t then (g.topicSubs t2).filter (fun s => decide (s ≠ sid))
      else g.topicSubs t2,
    sessTopics := fun s =>
      if s = sid then (g.sessTopics s).filter (fun t2 => decide (t2 ≠ t))
      else g.sessTopics s }

/-- Modelled from the spec: `removeSession(session)` of the Topic Registry
(section 4.1), used on disconnect; removes the session from every topic. -/
def removeSessionOp (g : Gateway) (sid : Nat) : Gateway :=
  { g with
    topicSubs := fun t2 => (g.topicSubs t2).filter (fun s => decide (s ≠ sid)),
    sessTopics := fun s => if s = sid then [] else g.sessTopics s }

/-- Modelled from the spec: enqueue into a bounded FIFO queue with the
drop-oldest policy of section 5 — on overflow evict the head, admit the new
event, and report one eviction for the drop counter. -/
def enqueueEvent (cap : Nat) (q : List Event) (e : Event) : List Event × Nat :=
  if cap ≤ q.length then (q.drop 1 ++ [e], 1) else (q ++ [e], 0)

/-- Modelled from the spec: the Dispatcher handling one published event
(section 4.5): enqueue to every subscribed session's queue and add the
evictions to the per-session drop counter. -/
def publishOp (g : Gateway) (e : Event) : Gateway :=
  { g with
    queue := fun s =>
      if s ∈ g.topicSubs e.topic then (enqueueEvent g.capacity (g.queue s) e).1
      else g.queue s,
    drops := fun s =>
      if s ∈ g.topicSubs e.topic then
        g.drops s + (enqueueEvent g.capacity (g.queue s) e).2
      else g.drops s }

/-- Modelled from the spec: publishing a list of events in order. -/
def publishAll (g : Gateway) (es : List Event) : Gateway :=
  es.foldl publishOp g

/-- Modelled from the spec: `drain()` of the Connection Session (section 4.2):
hand the queued events to the writer loop in FIFO order and empty the queue. -/
def drainOp (g : Gateway) (sid : Nat) : List Event × Gateway :=
  (g.queue sid, { g with queue := fun s => if s = sid then [] else g.queue s })

/-- Modelled from the spec: the gateway states reachable from the initial
state by subscribe, unsubscribe, removeSession, publish and drain. -/
inductive Reachable (cap : Nat) : Gateway → Prop where
  | init : Reachable cap (emptyGateway cap)
  | subscribe {g : Gateway} (sid : Nat) (t : String) :
      Reachable cap g → Reachable cap (subscribeOp g sid t)
  | unsubscribe {g : Gateway} (sid : Nat) (t : String) :
      Reachable cap g → Reachable cap (unsubscribeOp g sid t)
  | removeSession {g : Gateway} (sid : Nat) :
      Reachable cap g → Reachable cap (removeSessionOp g sid)
  | publish {g : Gateway} (e : Event) :
      Reachable cap g → Reachable cap (publishOp g e)
  | drain {g : Gateway} (sid : Nat) :
      Reachable cap g → Reachable cap (drainOp g sid).2

/-- Bidirectional consistency of the Topic Registry: a session is in a topic's
subscriber set iff the topic is in the session's subscribed-topic set. -/
def Consistent (g : Gateway) : Prop :=
  ∀ s t, s ∈ g.topicSubs t ↔ t ∈ g.sessTopics s

/-- Modelled from the spec: the resolved identity of a connection (section 3,
"Principal"): user identifier and entitlement flags. -/
structure Principal where
  userId : String
  trading_enabled : Bool
  is_verified : Bool
deriving DecidableEq

/-- Modelled from the spec: server control frames (section 6). -/
inductive Frame where
  | subscribed (topic : String)
  | unsubscribed (topic : String)
  | error (topic reason : String)
deriving DecidableEq

/-- The characters of a topic before the first colon. -/
def takeUntilColon : List Char → List Char
  | [] => []
  | c :: rest => if c = ':' then [] else c :: takeUntilColon rest

/-- The characters of a topic after the first colon. -/
def dropThroughColon : List Char → List Char
  | [] => []
  | c :: rest => if c = ':' then rest else dropThroughColon rest

/-- The namespace part of a topic such as `trading:alice`. -/
def topicNamespace (t : String) : String := String.mk (takeUntilColon t.toList)

/-- The scoping key of a topic such as `trading:alice`. -/
def topicKey (t : String) : String := String.mk (dropThroughColon t.toList)

/-- Modelled from the spec: topic-level authorization of the Gateway Front
Door (section 4.6): a subscribe request to a trading topic of another user, or
to any trading topic when `trading_enabled` is false, is answered with an
explicit error frame; otherwise the subscription is acknowledged. -/
def authorizeSubscribe (p : Principal) (t : String) : Frame :=
  if topicNamespace t = "trading"
      && (!p.trading_enabled || topicKey t != p.userId) then
    Frame.error t "forbidden"
  else Frame.subscribed t

/-- Membership in `addIfAbsent`. -/
lemma mem_addIfAbsent {α : Type} [DecidableEq α] {x y : α} {l : List α} :
    y ∈ addIfAbsent x l ↔ y ∈ l ∨ y = x := by
  unfold addIfAbsent
  by_cases hx : x ∈ l
  · rw [if_pos hx]
    constructor
    · exact fun h => Or.inl h
    · rintro (h | rfl)
      · exact h
      · exact hx
  · rw [if_neg hx]
    simp [List.mem_append]

/-- Membership in a filter that removes one element. -/
lemma mem_filter_ne {α : Type} [DecidableEq α] {x y : α} {l : List α} :
    y ∈ l.filter (fun z => decide (z ≠ x)) ↔ y ∈ l ∧ y ≠ x := by
  simp [List.mem_filter]

/-- `subscribeOp` keeps the two registry indexes consistent. -/
lemma subscribe_consistent {g : Gateway} {sid : Nat} {t : String}
    (h : Consistent g) : Consistent (subscribeOp g sid t) := by
  intro s t2
  simp only [subscribeOp]
  by_cases hs : s = sid <;> by_cases ht : t2 = t <;>
    simp [hs, ht, mem_addIfAbsent, h s t2, h sid t, h sid t2, h s t]

/-- `unsubscribeOp` keeps the two registry indexes consistent. -/
lemma unsubscribe_consistent {g : Gateway} {sid : Nat} {t : String}
    (h : Consistent g) : Consistent (unsubscribeOp g sid t) := by
  intro s t2
  simp only [unsubscribeOp]
  by_cases hs : s = sid <;> by_cases ht : t2 = t <;>
    simp [hs, ht, mem_filter_ne, h s t2, h sid t, h sid t2, h s t]

/-- `removeSessionOp` keeps the two registry indexes consistent. -/
lemma removeSession_consistent {g : Gateway} {sid : Nat}
    (h : Consistent g) : Consistent (removeSessionOp g sid) := by
  intro s t2
  simp only [removeSessionOp]
  by_cases hs : s = sid <;> simp [hs, mem_filter_ne, h s t2, h sid t2]

/-- Publishing does not touch the Topic Registry. -/
lemma publishAll_topicSubs (es : List Event) :
    ∀ g : Gateway, (publishAll g es).topicSubs = g.topicSubs := by
  induction es with
  | nil => intro g; rfl
  | cons e es ih => intro g; exact ih (publishOp g e)

/-- Publishing does not change the configured capacity. -/
lemma publishAll_capacity (es : List Event) :
    ∀ g : Gateway, (publishAll g es).capacity = g.capacity := by
  induction es with
  | nil => intro g; rfl
  | cons e es ih => intro g; exact ih (publishOp g e)

/-- For a session subscribed to the topic of every published event, the queue
after publishing is the fold of the bounded enqueue over the events. -/
lemma publishAll_queue_of_subscribed (es : List Event) :
    ∀ (g : Gateway) (s : Nat), (∀ e ∈ es, s ∈ g.topicSubs e.topic) →
      (publishAll g es).queue s =
        es.foldl (fun q e => (enqueueEvent g.capacity q e).1) (g.queue s) := by
  induction es with
  | nil => intro g s _; rfl
  | cons e es ih =>
    intro g s h
    have hmem : s ∈ g.topicSubs e.topic := h e (List.mem_cons_self e es)
    have hrest : ∀ e2 ∈ es, s ∈ (publishOp g e).topicSubs e2.topic :=
      fun e2 h2 => h e2 (List.mem_cons_of_mem e h2)
    calc (publishAll g (e :: es)).queue s
        = (publishAll (publishOp g e) es).queue s := rfl
      _ = es.foldl (fun q e2 => (enqueueEvent (publishOp g e).capacity q e2).1)
            ((publishOp g e).queue s) := ih (publishOp g e) s hrest
      _ = es.foldl (fun q e2 => (enqueueEvent g.capacity q e2).1)
            ((enqueueEvent g.capacity (g.queue s) e).1) := by
            simp [publishOp, hmem]
      _ = (e :: es).foldl (fun q e2 => (enqueueEvent g.capacity q e2).1)
            (g.queue s) := rfl

/-- For a session subscribed to no published event's topic, the queue is
untouched by publishing. -/
lemma publishAll_queue_of_not_subscribed (es : List Event) :
    ∀ (g : Gateway) (s : Nat), (∀ e ∈ es, s ∉ g.topicSubs e.topic) →
      (publishAll g es).queue s = g.queue s := by
  induction es with
  | nil => intro g s _; rfl
  | cons e es ih =>
    intro g s h
    have hmem : s ∉ g.topicSubs e.topic := h e (List.mem_cons_self e es)
    have hrest : ∀ e2 ∈ es, s ∉ (publishOp g e).topicSubs e2.topic :=
      fun e2 h2 => h e2 (List.mem_cons_of_mem e h2)
    calc (publishAll g (e :: es)).queue s
        = (publishAll (publishOp g e) es).queue s := rfl
      _ = (publishOp g e).queue s := ih (publishOp g e) s hrest
      _ = g.queue s := by simp [publishOp, hmem]

/-- Folding the bounded enqueue without ever reaching capacity appends the
events in order: FIFO with no drops. -/
lemma foldl_enqueue_append (cap : Nat) (es : List Event) :
    ∀ q : List Event, q.length + es.length ≤ cap →
      es.foldl (fun q e => (enqueueEvent cap q e).1) q = q ++ es := by
  induction es with
  | nil => intro q _; simp
  | cons e es ih =>
    intro q h
    have hlt : ¬ cap ≤ q.length := by
      simp only [List.length_cons] at h
      omega
    have henq : (enqueueEvent cap q e).1 = q ++ [e] := by
      simp [enqueueEvent, hlt]
    calc (e :: es).foldl (fun q e2 => (enqueueEvent cap q e2).1) q
        = es.foldl (fun q e2 => (enqueueEvent cap q e2).1)
            (enqueueEvent cap q e).1 := rfl
      _ = es.foldl (fun q e2 => (enqueueEvent cap q e2).1) (q ++ [e]) := by
            rw [henq]
      _ = (q ++ [e]) ++ es := by
            apply ih
            simp only [List.length_append, List.length_cons,
              List.length_nil] at *
            omega
      _ = q ++ e :: es := by simp

/-- Folding the bounded enqueue always yields a suffix of the starting queue
followed by the published events: delivered events keep publish order and are
never duplicated. -/
lemma foldl_enqueue_suffix (cap : Nat) (es : List Event) :
    ∀ q : List Event,
      (es.foldl (fun q e => (enqueueEvent cap q e).1) q) <:+ (q ++ es) := by
  induction es with
  | nil => intro q; simp
  | cons e es ih =>
    intro q
    rw [List.foldl_cons]
    by_cases hfull : cap ≤ q.length
    · have henq : (enqueueEvent cap q e).1 = q.drop 1 ++ [e] := by
        simp [enqueueEvent, hfull]
      rw [henq]
      refine (ih (q.drop 1 ++ [e])).trans ?_
      obtain ⟨u, hu⟩ : q.drop 1 <:+ q := List.drop_suffix 1 q
      refine ⟨u, ?_⟩
      rw [List.append_assoc, List.singleton_append, ← List.append_assoc, hu]
    · have henq : (enqueueEvent cap q e).1 = q ++ [e] := by
        simp [enqueueEvent, hfull]
      rw [henq]
      simpa [List.append_assoc] using ih (q ++ [e])

/-- `checkRequiredVars` succeeds exactly when every listed variable has a
truthy value. -/
lemma checkRequiredVars_ok (e : EnvMap) (l : List String) :
    checkRequiredVars e l = Except.ok () ↔ ∀ v ∈ l, envTruthy e v = true := by
  induction l with
  | nil => simp [checkRequiredVars]
  | cons v rest ih =>
    by_cases hv : envTruthy e v = true
    · simp [checkRequiredVars, hv, ih]
    · simp [checkRequiredVars, hv]

/-- `readNoDefault` succeeds exactly when every listed variable is set. -/
lemma readNoDefault_ok_iff (e : EnvMap) (l : List String) :
    readNoDefault e l = Except.ok () ↔ ∀ v ∈ l, e v ≠ none := by
  induction l with
  | nil => simp [readNoDefault]
  | cons v rest ih =>
    cases hv : e v with
    | none => simp [readNoDefault, hv, List.forall_mem_cons]
    | some s => simp [readNoDefault, hv, List.forall_mem_cons, ih]

/-- `readNoDefault` never raises a `ValueError`: its only exception is
`ImproperlyConfigured`. -/
lemma readNoDefault_ne_valueError (e : EnvMap) (l : List String) (msg : String) :
    readNoDefault e l ≠ Except.error (LoadError.valueError msg) := by
  induction l with
  | nil => simp [readNoDefault]
  | cons v rest ih =>
    cases hv : e v with
    | none => simp [readNoDefault, hv]
    | some s =>
      simp only [readNoDefault, hv]
      exact ih

/-- The registry after the single subscription of a fresh session. -/
lemma subscribe_empty_topicSubs (cap a : Nat) (t t2 : String) :
    (subscribeOp (emptyGateway cap) a t).topicSubs t2 =
      if t2 = t then [a] else [] := by
  by_cases h : t2 = t <;> simp [subscribeOp, emptyGateway, addIfAbsent, h]

/-- C1: with the queue capacity at least the number of events published to
topic t, a session subscribed to t drains exactly the published events in
publish order, a session that never subscribed drains nothing, and whatever
the capacity, the drained sequence is a suffix of the publish sequence (each
undropped event delivered exactly once, in order). -/
theorem ordered_delivery (cap : Nat) (t : String) (a b : Nat) (es : List Event)
    (hlen : es.length ≤ cap) (htop : ∀ e ∈ es, e.topic = t) (hab : b ≠ a) :
    (drainOp (publishAll (subscribeOp (emptyGateway cap) a t) es) a).1 = es ∧
    (drainOp (publishAll (subscribeOp (emptyGateway cap) a t) es) b).1 = [] ∧
    (∀ es2 : List Event, (∀ e ∈ es2, e.topic = t) →
      (drainOp (publishAll (subscribeOp (emptyGateway cap) a t) es2) a).1
        <:+ es2) := by
  have hsubA : ∀ es2 : List Event, (∀ e ∈ es2, e.topic = t) →
      ∀ e ∈ es2, a ∈ (subscribeOp (emptyGateway cap) a t).topicSubs e.topic := by
    intro es2 htop2 e he
    rw [htop2 e he, subscribe_empty_topicSubs]
    simp
  refine ⟨?_, ?_, ?_⟩
  · show (publishAll (subscribeOp (emptyGateway cap) a t) es).queue a = es
    rw [publishAll_queue_of_subscribed es _ a (hsubA es htop)]
    have : (subscribeOp (emptyGateway cap) a t).capacity = cap := rfl
    rw [this]
    have : (subscribeOp (emptyGateway cap) a t).queue a = [] := rfl
    rw [this]
    have := foldl_enqueue_append cap es [] (by simpa using hlen)
    simpa using this
  · show (publishAll (subscribeOp (emptyGateway cap) a t) es).queue b = []
    rw [publishAll_queue_of_not_subscribed es _ b]
    · rfl
    · intro e he
      rw [htop e he, subscribe_empty_topicSubs]
      simp [hab]
  · intro es2 htop2
    show (publishAll (subscribeOp (emptyGateway cap) a t) es2).queue a <:+ es2
    rw [publishAll_queue_of_subscribed es2 _ a (hsubA es2 htop2)]
    have h0 : (subscribeOp (emptyGateway cap) a t).queue a = [] := rfl
    rw [h0]
    simpa using foldl_enqueue_suffix
      (subscribeOp (emptyGateway cap) a t).capacity es2 []

/-- C1 witness: session 0 subscribed to `market-data:AAPL` drains seq 1,2,3
in order under capacity 1500; session 1, never subscribed, drains nothing. -/
theorem ordered_delivery_witness :
    (drainOp (publishAll (subscribeOp (emptyGateway 1500) 0 "market-data:AAPL")
        [Event.mk "market-data:AAPL" 1, Event.mk "market-data:AAPL" 2,
         Event.mk "market-data:AAPL" 3]) 0).1 =
      [Event.mk "market-data:AAPL" 1, Event.mk "market-data:AAPL" 2,
       Event.mk "market-data:AAPL" 3] ∧
    (drainOp (publishAll (subscribeOp (emptyGateway 1500) 0 "market-data:AAPL")
        [Event.mk "market-data:AAPL" 1, Event.mk "market-data:AAPL" 2,
         Event.mk "market-data:AAPL" 3]) 1).1 = [] :=
  ⟨(ordered_delivery 1500 "market-data:AAPL" 0 1 _
      (by decide) (by decide) (by decide)).1,
   (ordered_delivery 1500 "market-data:AAPL" 0 1 _
      (by decide) (by decide) (by decide)).2.1⟩

/-- C2: enqueueing into a full queue evicts the head, admits the new event and
reports exactly one eviction for the drop counter, while an enqueue below
capacity appends with no eviction; concretely, with capacity 2 and publishes
seq 1,2,3 the drain yields seq 2,3 and the drop counter is 1. -/
theorem drop_oldest_policy :
    (∀ (cap : Nat) (q : List Event) (e : Event), q.length = cap →
        enqueueEvent cap q e = (q.drop 1 ++ [e], 1)) ∧
    (∀ (cap : Nat) (q : List Event) (e : Event), q.length < cap →
        enqueueEvent cap q e = (q ++ [e], 0)) ∧
    (drainOp (publishAll (subscribeOp (emptyGateway 2) 0 "T")
        [Event.mk "T" 1, Event.mk "T" 2, Event.mk "T" 3]) 0).1 =
      [Event.mk "T" 2, Event.mk "T" 3] ∧
    (publishAll (subscribeOp (emptyGateway 2) 0 "T")
        [Event.mk "T" 1, Event.mk "T" 2, Event.mk "T" 3]).drops 0 = 1 := by
  refine ⟨?_, ?_, by decide, by decide⟩
  · intro cap q e h
    simp [enqueueEvent, h.symm.le]
  · intro cap q e h
    simp [enqueueEvent, Nat.not_le.mpr h]

/-- C2 witness: with capacity 2, enqueueing seq 3 into the full queue holding
seq 1,2 evicts seq 1, admits seq 3, and reports one eviction. -/
theorem drop_oldest_policy_witness :
    enqueueEvent 2 [Event.mk "T" 1, Event.mk "T" 2] (Event.mk "T" 3) =
      ([Event.mk "T" 1, Event.mk "T" 2].drop 1 ++ [Event.mk "T" 3], 1) :=
  drop_oldest_policy.1 2 [Event.mk "T" 1, Event.mk "T" 2] (Event.mk "T" 3)
    (by decide)

/-- C8: in every reachable gateway state, a session is in a topic's subscriber
set iff that topic is in the session's subscribed-topic set; every subscribe,
unsubscribe, removeSession, publish and drain step preserves the invariant. -/
theorem registry_consistency (cap : Nat) (g : Gateway)
    (h : Reachable cap g) : Consistent g := by
  induction h with
  | init => intro s t; simp [emptyGateway]
  | subscribe sid t _ ih => exact subscribe_consistent ih
  | unsubscribe sid t _ ih => exact unsubscribe_consistent ih
  | removeSession sid _ ih => exact removeSession_consistent ih
  | publish e _ ih => exact ih
  | drain sid _ ih => exact ih

/-- C8 witness: the state reached by one concrete subscription is
consistent. -/
theorem registry_consistency_witness :
    Consistent (subscribeOp (emptyGateway 8) 7 "market-data:AAPL") :=
  registry_consistency 8 _
    (Reachable.subscribe 7 "market-data:AAPL" Reachable.init)

/-- C9: `reset_failed_attempts` zeroes `failed_login_attempts`, clears
`account_locked_until`, persists exactly those two fields, leaves every other
field of the user unchanged, and afterwards `is_account_locked` is false at
every time. -/
theorem reset_failed_attempts_frame (u : User) (now : Nat) :
    (reset_failed_attempts u).1.failed_login_attempts = 0 ∧
    (reset_failed_attempts u).1.account_locked_until = none ∧
    (reset_failed_attempts u).2 =
      ["failed_login_attempts", "account_locked_until"] ∧
    (reset_failed_attempts u).1.username = u.username ∧
    (reset_failed_attempts u).1.is_active = u.is_active ∧
    (reset_failed_attempts u).1.is_verified = u.is_verified ∧
    (reset_failed_attempts u).1.trading_enabled = u.trading_enabled ∧
    (reset_failed_attempts u).1.paper_trading_only = u.paper_trading_only ∧
    (reset_failed_attempts u).1.two_factor_enabled = u.two_factor_enabled ∧
    (reset_failed_attempts u).1.email_notifications = u.email_notifications ∧
    is_account_locked (reset_failed_attempts u).1 now = false :=
  ⟨rfl, rfl, rfl, rfl, rfl, rfl, rfl, rfl, rfl, rfl, rfl⟩

/-- C5: a subscribe request to a trading topic by a principal whose
`trading_enabled` flag is false is answered with an explicit error frame, and
`can_trade` holds exactly when the user is active, verified, trading-enabled
and not currently locked (`account_locked_until` unset or not in the
future). -/
theorem trading_entitlement (p : Principal) (t : String) (u : User) (now : Nat)
    (hns : topicNamespace t = "trading") (hflag : p.trading_enabled = false) :
    authorizeSubscribe p t = Frame.error t "forbidden" ∧
    (can_trade u now = true ↔
      u.is_active = true ∧ u.is_verified = true ∧ u.trading_enabled = true ∧
      (u.account_locked_until = none ∨
        ∀ l, u.account_locked_until = some l → l ≤ now)) := by
  constructor
  · simp [authorizeSubscribe, hns, hflag]
  · cases h : u.account_locked_until with
    | none => simp [can_trade, is_account_locked, h, and_assoc]
    | some l =>
      simp only [can_trade, is_account_locked, h, Bool.and_eq_true,
        Bool.not_eq_true', decide_eq_false_iff_not, Nat.not_lt, and_assoc]
      constructor
      · rintro ⟨h1, h2, h3, h4⟩
        exact ⟨h1, h2, h3, Or.inr (fun l2 hl2 => by
          cases hl2; exact h4)⟩
      · rintro ⟨h1, h2, h3, h4 | h4⟩
        · cases h4
        · exact ⟨h1, h2, h3, h4 l rfl⟩

/-- C5 witness: a concrete principal with trading disabled subscribing to a
concrete trading topic receives an error frame. -/
theorem trading_entitlement_witness :
    authorizeSubscribe ⟨"alice", false, true⟩ "trading:alice" =
      Frame.error "trading:alice" "forbidden" :=
  (trading_entitlement ⟨"alice", false, true⟩ "trading:alice"
    ⟨"alice", true, true, true, true, false, 0, none, true⟩ 0
    (by decide) rfl).1

/-- C4: only the production channel-layer config carries symmetric encryption
keys; the base and development configs have none. -/
theorem production_only_encryption_keys :
    productionChannelConfig.lookup "symmetric_encryption_keys" =
      some (ConfigVal.listOf
        (ConfigVal.envWithDefault "CHANNELS_ENCRYPTION_KEY"
          (ConfigVal.envWithDefault "SECRET_KEY"
            (ConfigVal.str "your-secret-key-change-in-production")))) ∧
    baseChannelConfig.lookup "symmetric_encryption_keys" = none ∧
    developmentChannelConfig.lookup "symmetric_encryption_keys" = none := by
  decide

/-- C3 counterexample: in the base settings the channel-layer capacity and
expiry are the literals 1500 and 10, fixed in code rather than read from an
environment variable. -/
theorem channel_capacity_fixed_in_code :
    baseChannelConfig.lookup "capacity" = some (ConfigVal.num 1500) ∧
    isEnvSourced (ConfigVal.num 1500) = false ∧
    baseChannelConfig.lookup "expiry" = some (ConfigVal.num 10) ∧
    isEnvSourced (ConfigVal.num 10) = false := by
  decide

/-- C3 amended: every environment's channel-layer config specifies a finite
numeric capacity and expiry (1500/10 in base, 100/60 in development, 2000/30
in production), but all six values are literals fixed in code, not sourced
from environment variables. -/
theorem channel_capacity_expiry_finite :
    baseChannelConfig.lookup "capacity" = some (ConfigVal.num 1500) ∧
    baseChannelConfig.lookup "expiry" = some (ConfigVal.num 10) ∧
    developmentChannelConfig.lookup "capacity" = some (ConfigVal.num 100) ∧
    developmentChannelConfig.lookup "expiry" = some (ConfigVal.num 60) ∧
    productionChannelConfig.lookup "capacity" = some (ConfigVal.num 2000) ∧
    productionChannelConfig.lookup "expiry" = some (ConfigVal.num 30) ∧
    (allChannelConfigs.all (fun cfg =>
      !(isEnvSourced ((cfg.lookup "capacity").getD (ConfigVal.num 0))) &&
      !(isEnvSourced ((cfg.lookup "expiry").getD (ConfigVal.num 0))))) = true := by
  decide

/-- C6: for every topic namespace named by the spec, the routing table
contains at least one URL pattern scoped to that namespace, whichever
settings module is active. -/
theorem namespaces_routed (dsm : String) :
    specNamespaces.all (fun ns =>
      (websocket_urlpatterns dsm).any (fun p => scopedTo ns p.regex)) = true := by
  unfold websocket_urlpatterns current_env
  by_cases h : containsSub "production".toList dsm.toList = true
  · rw [if_pos h]; decide
  · rw [if_neg h]; decide

/-- C7 counterexample: the administrative system-status pattern is in the
routing table yet carries no named capture group. -/
theorem admin_pattern_lacks_group :
    (URLPattern.mk "ws/admin/system-status/$" []) ∈
      websocket_urlpatterns "trading_platform.settings.development" ∧
    (URLPattern.mk "ws/admin/system-status/$" []).groups = [] := by
  constructor
  · decide
  · rfl

/-- C7 amended: every URL pattern of the routing table carries a named
capture group in its path, except the administrative and monitoring
endpoints (`ws/admin/system-status/`, and `ws/health/`, `ws/metrics/` in
production), which carry none. -/
theorem patterns_carry_scoping_key (dsm : String) :
    (websocket_urlpatterns dsm).all (fun p =>
      !p.groups.isEmpty ||
      ["ws/admin/system-status/$", "ws/health/$", "ws/metrics/$"].contains
        p.regex) = true := by
  unfold websocket_urlpatterns current_env
  by_cases h : containsSub "production".toList dsm.toList = true
  · rw [if_pos h]; decide
  · rw [if_neg h]; decide

/-- C10 counterexample: in a concrete environment where `ALLOWED_HOSTS`,
`SECRET_KEY`, `DB_PASSWORD`, `EMAIL_HOST` and `EMAIL_HOST_USER` are set but
`EMAIL_HOST_PASSWORD` is unset, loading the production settings raises
`ImproperlyConfigured` at the no-default `env('EMAIL_HOST_PASSWORD')` read of
line 71 — not the `ValueError` of the `REQUIRED_ENV_VARS` loop, which is
never reached. -/
theorem production_raises_improperly_configured :
    loadProduction envMissingEmailPassword =
      Except.error (LoadError.improperlyConfigured "EMAIL_HOST_PASSWORD") ∧
    LoadError.improperlyConfigured "EMAIL_HOST_PASSWORD" ≠
      LoadError.valueError
        "Required environment variable EMAIL_HOST_PASSWORD is not set" := by
  constructor
  · rfl
  · decide

/-- C10 amended: loading the production settings succeeds exactly when the
parsed `ALLOWED_HOSTS` list is nonempty, every no-default `env(...)` read
finds its variable set, and every variable of `REQUIRED_ENV_VARS` is truthy —
so it still fails fast whenever a required variable is unset or
`ALLOWED_HOSTS` is empty — but for an unset `EMAIL_HOST_PASSWORD`,
`AWS_ACCESS_KEY_ID` or `AWS_SECRET_ACCESS_KEY` (with `ALLOWED_HOSTS`
nonempty) the exception raised is `ImproperlyConfigured` from an earlier
no-default read, never the loop's `ValueError`. -/
theorem production_fail_fast_amended (e : EnvMap) :
    (loadProduction e = Except.ok () ↔
      (allowedHostsList e ≠ [] ∧
       (∀ v ∈ noDefaultEnvReads, e v ≠ none) ∧
       (∀ v ∈ REQUIRED_ENV_VARS, envTruthy e v = true))) ∧
    (∀ v ∈ REQUIRED_ENV_VARS, envTruthy e v = false →
       loadProduction e ≠ Except.ok ()) ∧
    (∀ v ∈ ["EMAIL_HOST_PASSWORD", "AWS_ACCESS_KEY_ID",
            "AWS_SECRET_ACCESS_KEY"],
       e v = none → allowedHostsList e ≠ [] →
       ∀ msg, loadProduction e ≠ Except.error (LoadError.valueError msg)) := by
  have hiff : loadProduction e = Except.ok () ↔
      (allowedHostsList e ≠ [] ∧
       (∀ v ∈ noDefaultEnvReads, e v ≠ none) ∧
       (∀ v ∈ REQUIRED_ENV_VARS, envTruthy e v = true)) := by
    unfold loadProduction
    by_cases hAH : (allowedHostsList e).isEmpty = true
    · rw [if_pos hAH]
      simp [List.isEmpty_iff.mp hAH]
    · rw [if_neg hAH]
      have hAH2 : allowedHostsList e ≠ [] := by
        simpa [List.isEmpty_iff] using hAH
      cases hr : readNoDefault e noDefaultEnvReads with
      | error err =>
        constructor
        · intro h
          exact absurd h (by simp)
        · rintro ⟨-, hnd, -⟩
          have hok := (readNoDefault_ok_iff e noDefaultEnvReads).mpr hnd
          rw [hok] at hr
          exact absurd hr (by simp)
      | ok u =>
        cases u
        have hnd := (readNoDefault_ok_iff e noDefaultEnvReads).mp hr
        rw [checkRequiredVars_ok]
        constructor
        · intro h
          exact ⟨hAH2, hnd, h⟩
        · rintro ⟨-, -, h⟩
          exact h
  refine ⟨hiff, ?_, ?_⟩
  · intro v hv hfalse hok
    have := (hiff.mp hok).2.2 v hv
    rw [hfalse] at this
    exact absurd this (by simp)
  · intro v hv hnone hAH2 msg hload
    unfold loadProduction at hload
    rw [if_neg (by simpa [List.isEmpty_iff] using hAH2)] at hload
    cases hr : readNoDefault e noDefaultEnvReads with
    | error err =>
      rw [hr] at hload
      exact readNoDefault_ne_valueError e noDefaultEnvReads msg
        (hr.trans hload)
    | ok u =>
      have hnd := (readNoDefault_ok_iff e noDefaultEnvReads).mp hr
      have hvmem : v ∈ noDefaultEnvReads := by
        simp only [List.mem_cons, List.not_mem_nil, or_false] at hv
        rcases hv with rfl | rfl | rfl <;> decide
      exact (hnd v hvmem) hnone

/-- C10 witness: in an environment assigning a nonempty value to every
variable, the production settings load succeeds. -/
theorem production_fail_fast_amended_witness :
    loadProduction (fun _ => some "x") = Except.ok () :=
  (production_fail_fast_amended (fun _ => some "x")).1.mpr
    ⟨by decide, by decide, by decide⟩
